import Mathlib

/-!
A shallow embedding of `app/api/views.py` (the server API views of the doccano
annotation platform): the progress/statistics computation (`StatisticsAPI`), the
single-class-classification guard (`AnnotationList`), the import format dispatch
(`TextUploadAPI`, `GCPUploadAPI`), the export painter dispatch (`TextDownloadAPI`)
and the label upload (`LabelUploadAPI`).

Conventions of the embedding: querysets are lists of rows in the table's primary
(insertion) order; Django `Q`-filters become `List.filter`; model primary keys are
`Nat`; raising an exception becomes returning `Except.error`; a view that mutates
stored state is a function from the stored state to (response, new state).
-/

/-- An annotation row as the statistics and annotation-list views see it: the
authoring user's id (`user_id`), the authoring user's name (`user__username`),
the annotated document's id (`document_id`) and the referenced label's id. -/
structure Annotation where
  user_id : Nat
  username : String
  document_id : Nat
  label : Nat
  deriving DecidableEq, Repr

/-- `set.add`: appends a new element only when it is absent, keeping first
occurrence order (the embedding of inserting into one of the per-user Python
sets built by `StatisticsAPI._get_user_completion_data`). -/
def insertDoc (ds : List Nat) (d : Nat) : List Nat :=
  if d ∈ ds then ds else ds ++ [d]

/-- One loop step of `StatisticsAPI._get_user_completion_data`:
`set_user_data[username].add(doc_id)` on the defaultdict, embedded as an
association list from username to its set of document ids. -/
def addUserDoc : List (String × List Nat) → String → Nat → List (String × List Nat)
  | [], u, d => [(u, [d])]
  | (v, ds) :: rest, u, d =>
    if v = u then (v, insertDoc ds d) :: rest
    else (v, ds) :: addUserDoc rest u d

/-- The defaultdict built by the loop in `StatisticsAPI._get_user_completion_data`
over `all_annotation_objects.values('user__username', 'document__id')`. -/
def collectUserDocs (anns : List Annotation) : List (String × List Nat) :=
  anns.foldl (fun acc a => addUserDoc acc a.username a.document_id) []

/-- `StatisticsAPI._get_user_completion_data`: the per-username count of distinct
annotated documents, `{i: len(set_user_data[i]) for i in set_user_data}`. -/
def get_user_completion_data (anns : List Annotation) : List (String × Nat) :=
  (collectUserDocs anns).map (fun p => (p.1, p.2.length))

/-- The payload of `StatisticsAPI.progress`:
`{'total': total, 'remaining': remaining, 'user': user_data}`. -/
structure ProgressResult where
  total : Nat
  remaining : Nat
  user : List (String × Nat)
  deriving DecidableEq, Repr

/-- `StatisticsAPI.progress`. `docs` is the project's document queryset (ids);
`annotations` the annotation table of the project's annotation class. The user
tally is computed from the filter restricted to the project's documents only;
the `done` aggregate additionally restricts to the requesting user when the
project is not collaborative. -/
def progress (docs : List Nat) (annotations : List Annotation)
    ( collaborative_annotation : Bool) (request_user : Nat) : ProgressResult :=
  let total := docs.length
  let filtered := annotations.filter (fun a => decide (a.document_id ∈ docs))
  let user_data := get_user_completion_data filtered
  let filtered2 :=
    if collaborative_annotation then filtered
    else filtered.filter (fun a => decide (a.user_id = request_user))
  let done := ((filtered2.map (fun a => a.document_id)).dedup).length
  { total := total, remaining := total - done, user := user_data }

/-- Specification-side count: the number of distinct documents carrying at least
one annotation authored by username `u`. -/
def distinctDocsAnnotatedBy (anns : List Annotation) (u : String) : Nat :=
  ((anns.filter (fun a => decide (a.username = u))).map (fun a => a.document_id)).dedup.length

/-- Specification-side count: the number of distinct documents of the project
with at least one qualifying annotation, an annotation qualifying when the
project is collaborative or it was authored by the requesting user. -/
def qualifyingDone (docs : List Nat) (anns : List Annotation)
    (collab : Bool) (ru : Nat) : Nat :=
  ((anns.filter (fun a =>
      (decide (a.user_id = ru) || collab) && decide (a.document_id ∈ docs))).map
    (fun a => a.document_id)).dedup.length

/-- Reading a statistics map (dict access): an absent username stands for a
zero count. -/
def lookup0 : List (String × Nat) → String → Nat
  | [], _ => 0
  | (v, n) :: rest, u => if v = u then n else lookup0 rest u

/-- Reading the intermediate username-to-document-set dict. -/
def lookupDocs : List (String × List Nat) → String → Option (List Nat)
  | [], _ => none
  | (v, ds) :: rest, u => if v = u then some ds else lookupDocs rest u

/-- The per-user restriction of the defaultdict fold: what a single key's set
looks like after folding over the annotation rows. -/
def userDocsFold (u : String) (ds : List Nat) (anns : List Annotation) : List Nat :=
  anns.foldl (fun ds a => if a.username = u then insertDoc ds a.document_id else ds) ds

/-- The spec's worked scenario: three documents, documents 1 and 2 annotated by
user A (id 1), document 3 unannotated, non-collaborative project. -/
def annsA : List Annotation :=
  [{ user_id := 1, username := ("A"), document_id := 1, label := 1 },
   { user_id := 1, username := ("A"), document_id := 2, label := 1 }]

/-- An annotation on a document as a painter renders it:
`{"label": 5, "start_offset": 0, "end_offset": 2, "user": 1}`. -/
structure DocAnnotation where
  label : Nat
  start_offset : Nat
  end_offset : Nat
  user : Nat
  deriving DecidableEq, Repr

/-- A document row: primary key, raw text and its annotations. -/
structure Document where
  id : Nat
  text : String
  annotations : List DocAnnotation
  deriving DecidableEq, Repr

/-- A label row: primary key and project-scoped name. -/
structure Label where
  id : Nat
  name : String
  deriving DecidableEq, Repr

/-- The project fields `views.py` reads: the three flags and the owned
document and label querysets (in primary insertion order). -/
structure Project where
  collaborative_annotation : Bool
  single_class_classification : Bool
  randomize_document_order : Bool
  documents : List Document
  labels : List Label
  deriving DecidableEq, Repr

/-- A rest_framework error as the views raise it. -/
inductive ApiError where
  | validationError (detail : String)
  deriving DecidableEq, Repr

/-- The error `AnnotationList.check_single_class_classification` raises (the
spec's `DuplicateClassificationError`). -/
def duplicateClassificationError : ApiError :=
  ApiError.validationError
    ("requested to create duplicate annotation for single-class-classification project")

/-- `AnnotationList.check_single_class_classification`: on a
single-class-classification project, reject when an annotation already exists
on the document — restricted to the requesting user's annotations when the
project is not collaborative. -/
def check_single_class_classification (project : Project) (annotations : List Annotation)
    (doc_id : Nat) (user : Nat) : Except ApiError Unit :=
  if !project.single_class_classification then Except.ok ()
  else
    let anns := annotations.filter (fun a => decide (a.document_id = doc_id))
    let anns2 :=
      if !(Project.collaborative_annotation project) then
        anns.filter (fun a => decide (a.user_id = user))
      else anns
    if anns2.isEmpty then Except.ok ()
    else Except.error duplicateClassificationError

/-- `AnnotationList.create`: runs the single-class guard first and only then
persists the new annotation (with `document_id` and `user` taken from the
request route and requesting user, as `perform_create` saves them). The second
component is the annotation table after the request. -/
def AnnotationList.create (project : Project) (annotations : List Annotation)
    (doc_id : Nat) (user : Nat) (newAnn : Annotation) :
    Except ApiError Unit × List Annotation :=
  match check_single_class_classification project annotations doc_id user with
  | Except.error e => (Except.error e, annotations)
  | Except.ok _ =>
      (Except.ok (),
       annotations ++ [{ newAnn with document_id := doc_id, user_id := user }])

/-- A single-class, non-collaborative classification project. -/
def projSC : Project :=
  { collaborative_annotation := false
    single_class_classification := true
    randomize_document_order := false
    documents := []
    labels := [] }

/-- The parser classes of `app/api/utils.py`, one per format token. -/
inductive ParserKind where
  | plainText
  | csv
  | json
  | conll
  | excel
  | audio
  deriving DecidableEq, Repr

/-- Modelled from the spec: the parsers themselves live in `app/api/utils.py`,
which is not among the provided sources. Per §4.1 each parser converts the raw
upload into a sequence of canonical records; at the granularity this embedding
needs, a parsed upload is its list of records. -/
def ParserKind.parse (_p : ParserKind) (file : List String) : List String :=
  file

/-- `TextUploadAPI.select_parser`: the format-token dispatch of the plain
upload path. -/
def TextUploadAPI.selectParser (file_format : String) : Except ApiError ParserKind :=
  if file_format = "plain" then Except.ok ParserKind.plainText
  else if file_format = "csv" then Except.ok ParserKind.csv
  else if file_format = "json" then Except.ok ParserKind.json
  else if file_format = "conll" then Except.ok ParserKind.conll
  else if file_format = "excel" then Except.ok ParserKind.excel
  else if file_format = "audio" then Except.ok ParserKind.audio
  else Except.error (ApiError.validationError (("format " ++ file_format) ++ " is invalid."))

/-- `GCPUploadAPI.select_parser`: the format-token dispatch of the cloud-bucket
upload path (transcribed separately from its own source lines). -/
def GCPUploadAPI.selectParser (file_format : String) : Except ApiError ParserKind :=
  if file_format = "plain" then Except.ok ParserKind.plainText
  else if file_format = "csv" then Except.ok ParserKind.csv
  else if file_format = "json" then Except.ok ParserKind.json
  else if file_format = "conll" then Except.ok ParserKind.conll
  else if file_format = "excel" then Except.ok ParserKind.excel
  else if file_format = "audio" then Except.ok ParserKind.audio
  else Except.error (ApiError.validationError (("format " ++ file_format) ++ " is invalid."))

/-- `TextUploadAPI.save_file`: select the parser for the declared format — an
unknown token raises before the file is touched — then parse the file and
persist the parsed records (`project.get_storage(data); storage.save(user)`,
embedded as appending the records to the project's stored records). The second
component is the stored state after the request. -/
def TextUploadAPI.save_file (store : List String) (file : List String)
    (file_format : String) : Except ApiError Unit × List String :=
  match TextUploadAPI.selectParser file_format with
  | Except.error e => (Except.error e, store)
  | Except.ok p => (Except.ok (), store ++ p.parse file)

/-- Modelled from the spec: `get_label_per_data` lives on the annotation manager
(`app/api/managers.py`), not among the provided sources. §4.3: the label
distribution counts annotation rows grouped by label across the whole project. -/
def labelDistribution (anns : List Annotation) : List (Nat × Nat) :=
  (anns.map (fun a => a.label)).dedup.map
    (fun l => (l, (anns.filter (fun a => decide (a.label = l))).length))

/-- Modelled from the spec: the per-user half of `get_label_per_data` (the
`user_label` tally, a count of annotation rows grouped by authoring user). -/
def userLabelDistribution (anns : List Annotation) : List (String × Nat) :=
  (anns.map (fun a => a.username)).dedup.map
    (fun u => (u, (anns.filter (fun a => decide (a.username = u))).length))

/-- `StatisticsAPI.label_per_data`, returning the pair
`(label_count, user_count)`. -/
def label_per_data (anns : List Annotation) : List (Nat × Nat) × List (String × Nat) :=
  (labelDistribution anns, userLabelDistribution anns)

/-- A value of the statistics response, one constructor per kind of entry. -/
inductive StatValue where
  | labelDist (m : List (Nat × Nat))
  | userLabelDist (m : List (String × Nat))
  | count (n : Nat)
  | userDist (m : List (String × Nat))
  deriving DecidableEq, Repr

/-- `StatisticsAPI.get`: build the response dict from the requested `include`
keys (`request.GET.getlist('include')`, read with set semantics), then — when
`include` is non-empty — keep only the requested keys. The response dict is the
association list of its entries in insertion order. -/
def StatisticsAPI.get (includeParams : List String) (docs : List Nat)
    (anns : List Annotation) ( collaborative_annotation : Bool) (request_user : Nat) :
    List (String × StatValue) :=
  let projectAnns := anns.filter (fun a => decide (a.document_id ∈ docs))
  let response1 : List (String × StatValue) :=
    if includeParams.isEmpty || includeParams.contains ("label") then
      let lc := label_per_data projectAnns
      [(("label"), StatValue.labelDist lc.1),
       (("user_label"), StatValue.userLabelDist lc.2)]
    else []
  let response2 : List (String × StatValue) :=
    if includeParams.isEmpty || includeParams.contains ("total")
        || includeParams.contains ("remaining") || includeParams.contains ("user") then
      let p := progress docs anns collaborative_annotation request_user
      [(("total"), StatValue.count p.total),
       (("remaining"), StatValue.count p.remaining),
       (("user"), StatValue.userDist p.user)]
    else []
  let response := response1 ++ response2
  if includeParams.isEmpty then response
  else response.filter (fun kv => includeParams.contains kv.1)

/-- One rendered output record of an export, one per document. -/
inductive ExportRecord where
  | csvRows (text : String) (annotations : List DocAnnotation)
  | jsonRec (text : String) (annotations : List DocAnnotation)
  | json1Rec (text : String) (labels : List (Nat × Nat × String))
  deriving DecidableEq, Repr

/-- The document text an export record renders. -/
def ExportRecord.text : ExportRecord → String
  | ExportRecord.csvRows t _ => t
  | ExportRecord.jsonRec t _ => t
  | ExportRecord.json1Rec t _ => t

/-- The painter classes of `app/api/utils.py`. -/
inductive PainterKind where
  | csv
  | json
  deriving DecidableEq, Repr

/-- Modelled from the spec: `CSVPainter.paint` lives in `app/api/utils.py`, not
among the provided sources. §4.5: one flattened row set per document, in the
given document order, rendering the document's annotations. -/
def CSVPainter.paint (documents : List Document) : List ExportRecord :=
  documents.map (fun d => ExportRecord.csvRows d.text d.annotations)

/-- Modelled from the spec: `JSONPainter.paint` lives in `app/api/utils.py`, not
among the provided sources. §4.5: one record per document, in the given document
order, with annotations referencing labels by numeric id. -/
def JSONPainter.paint (documents : List Document) : List ExportRecord :=
  documents.map (fun d => ExportRecord.jsonRec d.text d.annotations)

/-- The label-name resolution of the json1 export: an annotation's label id is
replaced by the first matching project label's name, falling back to the
numeric id when no label matches (§4.5 and §9 of the spec). -/
def resolveLabel (labels : List Label) (a : DocAnnotation) : Nat × Nat × String :=
  match labels.find? (fun l => decide (l.id = a.label)) with
  | some l => (a.start_offset, a.end_offset, l.name)
  | none => (a.start_offset, a.end_offset, toString a.label)

/-- Modelled from the spec: `JSONPainter.paint_labels` lives in
`app/api/utils.py`, not among the provided sources. §4.5: the separate
label-resolution pass producing, per document,
`{"text": ..., "labels": [[start_offset, end_offset, "LABEL_NAME"], ...]}`. -/
def JSONPainter.paint_labels (documents : List Document) (labels : List Label) :
    List ExportRecord :=
  documents.map (fun d =>
    ExportRecord.json1Rec d.text (d.annotations.map (resolveLabel labels)))

def PainterKind.paint : PainterKind → List Document → List ExportRecord
  | PainterKind.csv, docs => CSVPainter.paint docs
  | PainterKind.json, docs => JSONPainter.paint docs

/-- `TextDownloadAPI.select_painter`: format-token dispatch of the export path
("json" and "json1" share the JSON painter). -/
def TextDownloadAPI.selectPainter (format : String) : Except ApiError PainterKind :=
  if format = "csv" then Except.ok PainterKind.csv
  else if format = "json" || format = "json1" then Except.ok PainterKind.json
  else Except.error (ApiError.validationError (("format " ++ format) ++ " is invalid."))

/-- `TextDownloadAPI.get`: export the project's document queryset
(`project.documents.all()`, primary insertion order); format "json1" goes
through the separate `JSONPainter.paint_labels` pass over the project's labels,
every other known format through the selected painter's `paint`. -/
def TextDownloadAPI.get (format : String) (project : Project) :
    Except ApiError (List ExportRecord) :=
  let documents := project.documents
  match TextDownloadAPI.selectPainter format with
  | Except.error e => Except.error e
  | Except.ok painter =>
    if format = "json1" then
      Except.ok (JSONPainter.paint_labels documents project.labels)
    else
      Except.ok (painter.paint documents)

/-- `DocumentList.get_queryset`: the presentation path, which orders documents
by `id % request_user_id` when the project requests a randomized order, and by
id otherwise. Listed for contrast with `TextDownloadAPI.get`, which never
consults `randomize_document_order`. -/
def DocumentList.get_queryset (project : Project) (request_user_id : Nat) :
    List Document :=
  if project.randomize_document_order then
    ((project.documents.map (fun d => (d.id % request_user_id, d))).mergeSort
      (fun x y => decide (x.1 ≤ y.1))).map Prod.snd
  else
    project.documents.mergeSort (fun x y => decide (x.id ≤ y.id))

/-- A concrete project for the export witnesses: one document, one label. -/
def projExport : Project :=
  { collaborative_annotation := false
    single_class_classification := false
    randomize_document_order := true
    documents :=
      [{ id := 1
         text := ("Bob Smith见habite à Paris.")
         annotations := [{ label := 5, start_offset := 0, end_offset := 15, user := 1 }] }]
    labels := [{ id := 5, name := ("PERSON") }] }

/-- A label row as `LabelUploadAPI` persists it: project-scoped name and
shortkey (the fields the uniqueness constraints cover). -/
structure LabelRow where
  name : String
  shortkey : String
  deriving DecidableEq, Repr

/-- Modelled from the spec: the Label uniqueness constraints — unique by
(project, name) and by (project, shortkey) — live in `app/api/models.py`, not
among the provided sources; `serializer.save(project=project)` inserts the row
and the persistence layer raises an integrity error when the new row collides
with a stored one on name or shortkey. -/
def labelInsert (store : List LabelRow) (l : LabelRow) : Except Unit (List LabelRow) :=
  if store.any (fun m => decide (m.name = l.name) || decide (m.shortkey = l.shortkey)) then
    Except.error ()
  else Except.ok (store ++ [l])

/-- The loop of `LabelUploadAPI.post`: save each uploaded label in order,
stopping at the first integrity error. -/
def saveLabels (store : List LabelRow) : List LabelRow → Except Unit (List LabelRow)
  | [] => Except.ok store
  | l :: rest =>
    match labelInsert store l with
    | Except.error e => Except.error e
    | Except.ok store2 => saveLabels store2 rest

/-- The responses `LabelUploadAPI.post` returns. -/
inductive UploadResponse where
  | created
  | badRequest (error : String)
  deriving DecidableEq, Repr

/-- The 400 response body of `LabelUploadAPI.post` on an integrity error (the
spec's `ConflictError`). -/
def labelConflictResponse : UploadResponse :=
  UploadResponse.badRequest
    ("IntegrityError: you cannot create a label with same name or shortkey.")

/-- `LabelUploadAPI.post`: runs under `transaction.atomic`, so when the loop
hits an integrity error the whole transaction rolls back — the stored labels
are returned unchanged — and the integrity error is mapped to a 400 response.
The second component is the label store after the request. -/
def LabelUploadAPI.post (store : List LabelRow) (labels : List LabelRow) :
    UploadResponse × List LabelRow :=
  match saveLabels store labels with
  | Except.ok store2 => (UploadResponse.created, store2)
  | Except.error _ => (labelConflictResponse, store)

lemma lookupDocs_addUserDoc (acc : List (String × List Nat)) (v u : String) (d : Nat) :
    lookupDocs (addUserDoc acc v d) u =
      if v = u then some (insertDoc ((lookupDocs acc v).getD []) d) else lookupDocs acc u := by
  induction acc with
  | nil =>
    by_cases h : v = u <;> simp [addUserDoc, lookupDocs, insertDoc, h]
  | cons p rest ih =>
    obtain ⟨w, ds⟩ := p
    by_cases hwv : w = v
    · subst hwv
      by_cases hwu : w = u <;> simp [addUserDoc, lookupDocs, hwu]
    · have hvw : ¬v = w := fun h => hwv h.symm
      by_cases hwu : w = u
      · subst hwu
        have hvu : ¬v = w := hvw
        simp [addUserDoc, lookupDocs, hwv, hvw, hvu]
      · simp [addUserDoc, lookupDocs, hwv, hwu, ih]

lemma lookup_collect_aux (anns : List Annotation) (acc : List (String × List Nat))
    (u : String) :
    ((lookupDocs (anns.foldl (fun acc a => addUserDoc acc a.username a.document_id) acc) u).getD [])
      = userDocsFold u ((lookupDocs acc u).getD []) anns := by
  induction anns generalizing acc with
  | nil => rfl
  | cons a anns ih =>
    simp only [List.foldl_cons, userDocsFold, ih, lookupDocs_addUserDoc]
    by_cases h : a.username = u
    · subst h; simp [userDocsFold]
    · simp [userDocsFold, h]

lemma nodup_insertDoc {ds : List Nat} (h : ds.Nodup) (d : Nat) : (insertDoc ds d).Nodup := by
  unfold insertDoc
  split
  · exact h
  · next hd => simp [List.nodup_append, h, hd]

lemma toFinset_insertDoc (ds : List Nat) (d : Nat) :
    (insertDoc ds d).toFinset = insert d ds.toFinset := by
  unfold insertDoc
  split
  · next hd => simp [Finset.insert_eq_self, hd]
  · simp [List.toFinset_append, Finset.union_comm, Finset.insert_eq]

lemma nodup_userDocsFold (u : String) {ds : List Nat} (h : ds.Nodup)
    (anns : List Annotation) : (userDocsFold u ds anns).Nodup := by
  induction anns generalizing ds with
  | nil => exact h
  | cons a anns ih =>
    simp only [userDocsFold, List.foldl_cons]
    by_cases ha : a.username = u
    · simpa [ha] using ih (nodup_insertDoc h a.document_id)
    · simpa [ha] using ih h

lemma toFinset_userDocsFold (u : String) (ds : List Nat) (anns : List Annotation) :
    (userDocsFold u ds anns).toFinset =
      ds.toFinset ∪
        ((anns.filter (fun a => decide (a.username = u))).map (fun a => a.document_id)).toFinset := by
  induction anns generalizing ds with
  | nil => simp [userDocsFold]
  | cons a anns ih =>
    by_cases ha : a.username = u
    · have step : userDocsFold u ds (a :: anns)
          = userDocsFold u (insertDoc ds a.document_id) anns := by
        simp [userDocsFold, ha]
      rw [step, ih, toFinset_insertDoc]
      simp [ha, Finset.insert_union, Finset.union_insert]
    · have step : userDocsFold u ds (a :: anns) = userDocsFold u ds anns := by
        simp [userDocsFold, ha]
      rw [step, ih]
      simp [ha]

lemma lookup0_map_length (m : List (String × List Nat)) (u : String) :
    lookup0 (m.map (fun p => (p.1, p.2.length))) u = ((lookupDocs m u).getD []).length := by
  induction m with
  | nil => rfl
  | cons p m ih =>
    obtain ⟨w, ds⟩ := p
    by_cases h : w = u <;> simp [lookup0, lookupDocs, h, ih]

/-- The dict produced by `_get_user_completion_data` reads back, at every
username, as the number of distinct documents that user annotated. -/
lemma get_user_completion_data_eq (anns : List Annotation) (u : String) :
    lookup0 (get_user_completion_data anns) u = distinctDocsAnnotatedBy anns u := by
  have h1 : lookup0 (get_user_completion_data anns) u
      = ((lookupDocs (collectUserDocs anns) u).getD []).length :=
    lookup0_map_length (collectUserDocs anns) u
  have h2 : (lookupDocs (collectUserDocs anns) u).getD [] = userDocsFold u [] anns := by
    have := lookup_collect_aux anns [] u
    simpa [collectUserDocs, lookupDocs] using this
  have hnodup : (userDocsFold u [] anns).Nodup := nodup_userDocsFold u List.nodup_nil anns
  have hfin : (userDocsFold u [] anns).toFinset =
      ((anns.filter (fun a => decide (a.username = u))).map (fun a => a.document_id)).toFinset := by
    simpa using toFinset_userDocsFold u [] anns
  rw [h1, h2, ← List.toFinset_card_of_nodup hnodup, hfin, List.card_toFinset]
  rfl

/-- C1: the per-user map of `StatisticsAPI.progress` assigns to each username the
count of distinct project documents that user annotated, over all annotations of
the project, and does not depend on the collaborative flag or on who requests. -/
theorem per_user_stats_global (docs : List Nat) (anns : List Annotation)
    (c c' : Bool) (ru ru' : Nat) (u : String) :
    (progress docs anns c ru).user = (progress docs anns c' ru').user ∧
    lookup0 (progress docs anns c ru).user u
      = distinctDocsAnnotatedBy (anns.filter (fun a => decide (a.document_id ∈ docs))) u := by
  constructor
  · rfl
  · exact get_user_completion_data_eq _ u

lemma filter2_eq (docs : List Nat) (anns : List Annotation) (collab : Bool) (ru : Nat) :
    (if collab then anns.filter (fun a => decide (a.document_id ∈ docs))
     else (anns.filter (fun a => decide (a.document_id ∈ docs))).filter
            (fun a => decide (a.user_id = ru)))
      = anns.filter (fun a =>
          (decide (a.user_id = ru) || collab) && decide (a.document_id ∈ docs)) := by
  cases collab
  · rw [if_neg (by simp), List.filter_filter]
    apply List.filter_congr
    intro a _
    simp
  · rw [if_pos rfl]
    apply List.filter_congr
    intro a _
    simp

lemma progress_remaining_eq (docs : List Nat) (anns : List Annotation)
    (collab : Bool) (ru : Nat) :
    (progress docs anns collab ru).remaining
      = docs.length - qualifyingDone docs anns collab ru := by
  have h : (progress docs anns collab ru).remaining
      = docs.length -
          (((if collab then anns.filter (fun a => decide (a.document_id ∈ docs))
             else (anns.filter (fun a => decide (a.document_id ∈ docs))).filter
                    (fun a => decide (a.user_id = ru))).map
            (fun a => a.document_id)).dedup).length := rfl
  rw [h, filter2_eq]
  rfl

lemma filter_docs_erase (docs : List Nat) (anns : List Annotation) (d : Nat)
    (hz : ∀ a ∈ anns, a.document_id ≠ d) :
    anns.filter (fun a => decide (a.document_id ∈ docs.erase d))
      = anns.filter (fun a => decide (a.document_id ∈ docs)) := by
  apply List.filter_congr
  intro a ha
  simp [List.mem_erase_of_ne (hz a ha)]

/-- C2: `StatisticsAPI.progress` returns `total` = number of project documents and
`remaining` = total minus the number of distinct documents with a qualifying
annotation (any annotation when collaborative, else one authored by the
requesting user); a document `d` with no annotations raises `total` by one and
leaves the done count and every per-user entry unchanged. -/
theorem progress_total_remaining (docs : List Nat) (anns : List Annotation)
    (collab : Bool) (ru : Nat) (d : Nat) (hd : d ∈ docs)
    (hz : ∀ a ∈ anns, a.document_id ≠ d) :
    (progress docs anns collab ru).total = docs.length ∧
    (progress docs anns collab ru).remaining
      = docs.length - qualifyingDone docs anns collab ru ∧
    (progress docs anns collab ru).total
      = (progress (docs.erase d) anns collab ru).total + 1 ∧
    qualifyingDone docs anns collab ru = qualifyingDone (docs.erase d) anns collab ru ∧
    (progress docs anns collab ru).user = (progress (docs.erase d) anns collab ru).user := by
  refine ⟨rfl, progress_remaining_eq docs anns collab ru, ?_, ?_, ?_⟩
  · have h1 : (docs.erase d).length = docs.length - 1 := List.length_erase_of_mem hd
    have h2 : 0 < docs.length := List.length_pos_of_mem hd
    show docs.length = (docs.erase d).length + 1
    omega
  · unfold qualifyingDone
    have : anns.filter (fun a =>
          (decide (a.user_id = ru) || collab) && decide (a.document_id ∈ docs.erase d))
        = anns.filter (fun a =>
          (decide (a.user_id = ru) || collab) && decide (a.document_id ∈ docs)) := by
      apply List.filter_congr
      intro a ha
      simp [List.mem_erase_of_ne (hz a ha)]
    rw [this]
  · show get_user_completion_data (anns.filter (fun a => decide (a.document_id ∈ docs)))
      = get_user_completion_data (anns.filter (fun a => decide (a.document_id ∈ docs.erase d)))
    rw [filter_docs_erase docs anns d hz]

/-- Witness for C2 at the spec's scenario: total 3 and remaining 1. -/
theorem progress_total_remaining_witness :
    (progress [1, 2, 3] annsA false 1).total = 3 ∧
    (progress [1, 2, 3] annsA false 1).remaining = 1 := by
  have h := progress_total_remaining [1, 2, 3] annsA false 1 3 (by decide) (by decide)
  refine ⟨?_, ?_⟩
  · rw [h.1]
    decide
  · rw [h.2.1]
    decide

/-- C3: on a project with `single_class_classification` the creation fails with
the duplicate-classification error — leaving the annotation table unchanged —
exactly when an annotation already exists in scope (the whole document when
collaborative, the document-and-user pair otherwise); without the flag the
creation is unconditional. -/
theorem single_class_guard (project : Project) (anns : List Annotation)
    (doc_id user : Nat) (newAnn : Annotation) :
    (project.single_class_classification = true →
      ((∃ a ∈ anns, a.document_id = doc_id ∧
          (Project.collaborative_annotation project = true ∨ a.user_id = user)) ↔
        AnnotationList.create project anns doc_id user newAnn
          = (Except.error duplicateClassificationError, anns))) ∧
    (project.single_class_classification = false →
      AnnotationList.create project anns doc_id user newAnn
        = (Except.ok (),
           anns ++ [{ newAnn with document_id := doc_id, user_id := user }])) := by
  constructor
  · intro hs
    unfold AnnotationList.create check_single_class_classification
    rw [hs]
    cases hc : Project.collaborative_annotation project
    · simp only [Bool.not_true, Bool.not_false, if_neg, if_pos, Bool.false_eq_true,
        ite_false, ite_true]
      rw [List.filter_filter]
      constructor
      · rintro ⟨a, ha, hdoc, hu⟩
        rcases hu with hu | hu
        · exact absurd hu (by simp [hc])
        · have hmem : a ∈ anns.filter
              (fun a => decide (a.user_id = user) && decide (a.document_id = doc_id)) := by
            simp [List.mem_filter, ha, hdoc, hu]
          have : ¬ (anns.filter
              (fun a => decide (a.user_id = user) && decide (a.document_id = doc_id))).isEmpty := by
            rw [List.isEmpty_iff]
            intro hnil
            rw [hnil] at hmem
            exact absurd hmem (List.not_mem_nil a)
          simp [this]
      · intro h
        by_cases he : (anns.filter
            (fun a => decide (a.user_id = user) && decide (a.document_id = doc_id))).isEmpty
        · simp [he] at h
        · rw [List.isEmpty_iff] at he
          obtain ⟨a, ha⟩ := List.exists_mem_of_ne_nil _ he
          rw [List.mem_filter] at ha
          have hb := ha.2
          rw [Bool.and_eq_true, decide_eq_true_eq, decide_eq_true_eq] at hb
          exact ⟨a, ha.1, hb.2, Or.inr hb.1⟩
    · simp only [Bool.not_true, Bool.not_false, ite_false, ite_true]
      constructor
      · rintro ⟨a, ha, hdoc, _⟩
        have hmem : a ∈ anns.filter (fun a => decide (a.document_id = doc_id)) := by
          simp [List.mem_filter, ha, hdoc]
        have : ¬ (anns.filter (fun a => decide (a.document_id = doc_id))).isEmpty := by
          rw [List.isEmpty_iff]
          intro hnil
          rw [hnil] at hmem
          exact absurd hmem (List.not_mem_nil a)
        simp [this]
      · intro h
        by_cases he : (anns.filter (fun a => decide (a.document_id = doc_id))).isEmpty
        · simp [he] at h
        · rw [List.isEmpty_iff] at he
          obtain ⟨a, ha⟩ := List.exists_mem_of_ne_nil _ he
          rw [List.mem_filter] at ha
          exact ⟨a, ha.1, by simpa using ha.2, Or.inl trivial⟩
  · intro hs
    unfold AnnotationList.create check_single_class_classification
    rw [hs]
    rfl

/-- Witness for C3: on `projSC` with one existing annotation by user 1 on
document 1, a second creation by user 1 on document 1 is rejected and the
table is unchanged. -/
theorem single_class_guard_witness :
    AnnotationList.create projSC annsA 1 1
        { user_id := 1, username := ("A"), document_id := 1, label := 2 }
      = (Except.error duplicateClassificationError, annsA) := by
  have h := single_class_guard projSC annsA 1 1
    { user_id := 1, username := ("A"), document_id := 1, label := 2 }
  exact (h.1 rfl).mp ⟨{ user_id := 1, username := ("A"), document_id := 1, label := 1 },
    by decide, rfl, Or.inr rfl⟩

/-- C5: a format token outside {plain, csv, json, conll, excel, audio} makes
the import fail with the invalid-format error, with the stored records unchanged and
the outcome independent of the uploaded file (nothing of it is read). -/
theorem unknown_format_rejected (store file file' : List String) (fmt : String)
    (h : fmt ∉ (["plain", "csv", "json", "conll", "excel", "audio"] : List String)) :
    (TextUploadAPI.save_file store file fmt).1
      = Except.error (ApiError.validationError (("format " ++ fmt) ++ " is invalid.")) ∧
    (TextUploadAPI.save_file store file fmt).2 = store ∧
    TextUploadAPI.save_file store file fmt = TextUploadAPI.save_file store file' fmt := by
  simp only [List.mem_cons, List.not_mem_nil, or_false, not_or] at h
  obtain ⟨h1, h2, h3, h4, h5, h6⟩ := h
  refine ⟨?_, ?_, ?_⟩ <;>
    simp [TextUploadAPI.save_file, TextUploadAPI.selectParser, h1, h2, h3, h4, h5, h6]

/-- Witness for C5 at the spec's example token "xml". -/
theorem unknown_format_rejected_witness :
    (TextUploadAPI.save_file [] [("a"), ("b")] ("xml")).1
        = Except.error (ApiError.validationError (("format " ++ ("xml")) ++ " is invalid.")) ∧
    (TextUploadAPI.save_file [] [("a"), ("b")] ("xml")).2 = [] ∧
    TextUploadAPI.save_file [] [("a"), ("b")] ("xml")
      = TextUploadAPI.save_file [] [("c")] ("xml") :=
  unknown_format_rejected [] [("a"), ("b")] [("c")] ("xml") (by decide)

/-- C10: the two import entry points dispatch format tokens identically: the
same parser for every token, succeeding exactly on the closed enum. -/
theorem upload_dispatch_equivalent (fmt : String) :
    GCPUploadAPI.selectParser fmt = TextUploadAPI.selectParser fmt ∧
    ((GCPUploadAPI.selectParser fmt).isOk = true ↔
      fmt ∈ (["plain", "csv", "json", "conll", "excel", "audio"] : List String)) := by
  refine ⟨rfl, ?_⟩
  unfold GCPUploadAPI.selectParser
  split_ifs <;> simp_all [Except.isOk, Except.toBool]

/-- Witness for C10 at the token "conll". -/
theorem upload_dispatch_equivalent_witness :
    GCPUploadAPI.selectParser ("conll") = TextUploadAPI.selectParser ("conll") ∧
    ((GCPUploadAPI.selectParser ("conll")).isOk = true ↔
      ("conll") ∈ (["plain", "csv", "json", "conll", "excel", "audio"] : List String)) :=
  upload_dispatch_equivalent ("conll")

/-- C9: with `include` absent or empty, the statistics response carries all five
keys, each bound to its computed value. -/
theorem stats_default_all_keys (docs : List Nat) (anns : List Annotation)
    (collab : Bool) (ru : Nat) :
    StatisticsAPI.get [] docs anns collab ru =
      [(("label"), StatValue.labelDist
          (labelDistribution (anns.filter (fun a => decide (a.document_id ∈ docs))))),
       (("user_label"), StatValue.userLabelDist
          (userLabelDistribution (anns.filter (fun a => decide (a.document_id ∈ docs))))),
       (("total"), StatValue.count (progress docs anns collab ru).total),
       (("remaining"), StatValue.count (progress docs anns collab ru).remaining),
       (("user"), StatValue.userDist (progress docs anns collab ru).user)] := rfl

/-- Counterexample for C4: requesting exactly the subset {user_label} yields an
empty response — the requested key `user_label` is absent. -/
theorem stats_user_label_alone_missing :
    StatisticsAPI.get [("user_label")] [1] [] false 1 = [] ∧
    ¬ (("user_label") ∈ (StatisticsAPI.get [("user_label")] [1] [] false 1).map Prod.fst) := by
  constructor
  · rfl
  · decide

/-- C4 as amended: for a non-empty requested subset, the response is the full
(empty-include) response filtered down to the requested keys, except that
`user_label` additionally requires `label` to be requested. -/
theorem stats_include_selects (includeParams : List String) (docs : List Nat)
    (anns : List Annotation) (collab : Bool) (ru : Nat)
    (h : includeParams ≠ []) :
    StatisticsAPI.get includeParams docs anns collab ru =
      (StatisticsAPI.get [] docs anns collab ru).filter
        (fun kv => includeParams.contains kv.1 &&
          (!(kv.1 == ("user_label")) || includeParams.contains ("label"))) := by
  have hne : includeParams.isEmpty = false := by
    cases includeParams
    · exact absurd rfl h
    · rfl
  by_cases hl : ("label") ∈ includeParams <;>
    by_cases ht : ("total") ∈ includeParams <;>
      by_cases hr : ("remaining") ∈ includeParams <;>
        by_cases hu : ("user") ∈ includeParams <;>
          by_cases hul : ("user_label") ∈ includeParams <;>
            simp [StatisticsAPI.get, hne, hl, ht, hr, hu, hul, List.filter]

/-- Witness for C4 (amended) at the request {total}. -/
theorem stats_include_selects_witness :
    StatisticsAPI.get [("total")] [1] annsA false 1 =
      (StatisticsAPI.get [] [1] annsA false 1).filter
        (fun kv => [("total")].contains kv.1 &&
          (!(kv.1 == ("user_label")) || [("total")].contains ("label"))) :=
  stats_include_selects [("total")] [1] annsA false 1 (by decide)

/-- C6: the export output lists documents in the project's primary insertion
order — record by record the texts are the documents' texts in stored order —
and the result never depends on the `randomize_document_order` flag. -/
theorem export_insertion_order (p : Project) (format : String) (b b' : Bool)
    (data : List ExportRecord)
    (hok : TextDownloadAPI.get format p = Except.ok data) :
    TextDownloadAPI.get format { p with randomize_document_order := b }
      = TextDownloadAPI.get format { p with randomize_document_order := b' } ∧
    data.map ExportRecord.text = p.documents.map Document.text := by
  refine ⟨rfl, ?_⟩
  by_cases h1 : format = "csv"
  · subst h1
    simp [TextDownloadAPI.get, TextDownloadAPI.selectPainter] at hok
    rw [← hok]
    simp [CSVPainter.paint, PainterKind.paint, ExportRecord.text]
  · by_cases h2 : format = "json"
    · subst h2
      simp [TextDownloadAPI.get, TextDownloadAPI.selectPainter] at hok
      rw [← hok]
      simp [JSONPainter.paint, PainterKind.paint, ExportRecord.text]
    · by_cases h3 : format = "json1"
      · subst h3
        simp [TextDownloadAPI.get, TextDownloadAPI.selectPainter] at hok
        rw [← hok]
        simp [JSONPainter.paint_labels, ExportRecord.text]
      · exact absurd hok
          (by simp [TextDownloadAPI.get, TextDownloadAPI.selectPainter, h1, h2, h3])

/-- Witness for C6: exporting `projExport` as json succeeds and its record
texts follow the stored document order, whatever the randomize flag. -/
theorem export_insertion_order_witness :
    TextDownloadAPI.get ("json") { projExport with randomize_document_order := true }
      = TextDownloadAPI.get ("json") { projExport with randomize_document_order := false } ∧
    (JSONPainter.paint projExport.documents).map ExportRecord.text
      = projExport.documents.map Document.text :=
  export_insertion_order projExport ("json") true false
    (JSONPainter.paint projExport.documents) rfl

lemma find_label_of_nodup (labels : List Label) (l : Label) (hl : l ∈ labels)
    (hn : (labels.map Label.id).Nodup) :
    labels.find? (fun m => decide (m.id = l.id)) = some l := by
  induction labels with
  | nil => exact absurd hl (List.not_mem_nil l)
  | cons m rest ih =>
    rw [List.map_cons, List.nodup_cons] at hn
    rcases List.mem_cons.mp hl with hml | hrest
    · subst hml
      simp [List.find?]
    · have hne : ¬ m.id = l.id := by
        intro he
        exact hn.1 (he ▸ List.mem_map_of_mem Label.id hrest)
      rw [List.find?]
      simp only [decide_eq_false hne]
      exact ih hrest hn.2

/-- C7: the "json1" export goes through the separate `paint_labels` pass over
the project's documents and labels — which renders each annotation as
`[start_offset, end_offset, LABEL_NAME]`, resolving the label id to the
project-scoped name — while "json" goes through the ordinary `paint` pass,
whose records keep numeric label ids. -/
theorem json1_export_label_resolution (p : Project) (l : Label) (a : DocAnnotation)
    (hl : l ∈ p.labels) (hn : (p.labels.map Label.id).Nodup) (ha : a.label = l.id) :
    TextDownloadAPI.get ("json1") p
      = Except.ok (JSONPainter.paint_labels p.documents p.labels) ∧
    TextDownloadAPI.get ("json") p = Except.ok (JSONPainter.paint p.documents) ∧
    JSONPainter.paint_labels p.documents p.labels
      = p.documents.map (fun d =>
          ExportRecord.json1Rec d.text (d.annotations.map (resolveLabel p.labels))) ∧
    JSONPainter.paint p.documents
      = p.documents.map (fun d => ExportRecord.jsonRec d.text d.annotations) ∧
    resolveLabel p.labels a = (a.start_offset, a.end_offset, l.name) := by
  refine ⟨by simp [TextDownloadAPI.get, TextDownloadAPI.selectPainter],
    by simp [TextDownloadAPI.get, TextDownloadAPI.selectPainter, PainterKind.paint],
    rfl, rfl, ?_⟩
  unfold resolveLabel
  rw [ha, find_label_of_nodup p.labels l hl hn]

/-- Witness for C7 at the spec's scenario: Label(id=5, name="PERSON") at
offsets (0, 15) is rendered as (0, 15, "PERSON"). -/
theorem json1_export_label_resolution_witness :
    resolveLabel projExport.labels { label := 5, start_offset := 0, end_offset := 15, user := 1 }
      = (0, 15, ("PERSON")) :=
  (json1_export_label_resolution projExport { id := 5, name := ("PERSON") }
    { label := 5, start_offset := 0, end_offset := 15, user := 1 }
    (by decide) (by decide) rfl).2.2.2.2

lemma saveLabels_conflict (batch : List LabelRow) :
    ∀ store : List LabelRow, ∀ l ∈ batch, ∀ m ∈ store,
      (m.name = l.name ∨ m.shortkey = l.shortkey) →
      saveLabels store batch = Except.error () := by
  induction batch with
  | nil => intro _ l hl; exact absurd hl (List.not_mem_nil l)
  | cons l0 rest ih =>
    intro store l hl m hm hdup
    rcases List.mem_cons.mp hl with hel | hrest
    · subst hel
      have hany : store.any
          (fun x => decide (x.name = l.name) || decide (x.shortkey = l.shortkey)) = true := by
        rw [List.any_eq_true]
        exact ⟨m, hm, by rcases hdup with h | h <;> simp [h]⟩
      simp [saveLabels, labelInsert, hany]
    · by_cases hany : store.any
          (fun x => decide (x.name = l0.name) || decide (x.shortkey = l0.shortkey)) = true
      · simp [saveLabels, labelInsert, hany]
      · have hins : labelInsert store l0 = Except.ok (store ++ [l0]) := by
          unfold labelInsert
          rw [if_neg hany]
        simp only [saveLabels, hins]
        exact ih (store ++ [l0]) l hrest m (List.mem_append_left _ hm) hdup

/-- C8: a label batch containing a row whose name or shortkey duplicates an
already-stored label of the project is answered with the integrity-error 400
response (the spec's `ConflictError`), and — the batch being one transaction —
no label of the batch is persisted. -/
theorem label_upload_conflict_atomic (store batch : List LabelRow) (l m : LabelRow)
    (hl : l ∈ batch) (hm : m ∈ store)
    (hdup : m.name = l.name ∨ m.shortkey = l.shortkey) :
    (LabelUploadAPI.post store batch).1 = labelConflictResponse ∧
    (LabelUploadAPI.post store batch).2 = store := by
  have herr := saveLabels_conflict batch store l hl m hm hdup
  unfold LabelUploadAPI.post
  rw [herr]
  exact ⟨rfl, rfl⟩

/-- Witness for C8: a one-label batch duplicating the stored label's name is
rejected and the store is unchanged. -/
theorem label_upload_conflict_atomic_witness :
    (LabelUploadAPI.post [{ name := ("PERSON"), shortkey := ("p") }]
        [{ name := ("PERSON"), shortkey := ("q") }]).1 = labelConflictResponse ∧
    (LabelUploadAPI.post [{ name := ("PERSON"), shortkey := ("p") }]
        [{ name := ("PERSON"), shortkey := ("q") }]).2
      = [{ name := ("PERSON"), shortkey := ("p") }] :=
  label_upload_conflict_atomic
    [{ name := ("PERSON"), shortkey := ("p") }]
    [{ name := ("PERSON"), shortkey := ("q") }]
    { name := ("PERSON"), shortkey := ("q") }
    { name := ("PERSON"), shortkey := ("p") }
    (by decide) (by decide) (Or.inl rfl)
